import Mathlib

/-!
Verification of the MapNav session/visit-tracking and route/suggestion
pipelines, shallowly embedded from the TypeScript sources:
  - src/app/api/user-visits/route.ts  (visit-event handler and geo enrichment)
  - src/app/page.tsx                  (suggestion pipeline, recent searches,
                                       route acquisition and fallback)
Timestamps are modelled as integer milliseconds (JavaScript
`Date.prototype.getTime`).  External network calls are modelled by explicit
outcome parameters, so every handler is a pure function of its inputs.
-/

namespace MapNav

/-! ### Geographic enrichment (route.ts, `getGeographicData`) -/

/-- Result record of geo enrichment. -/
structure GeoData where
  city : String
  country : String
  region : String
deriving DecidableEq

/-- Outcome of the external ip lookup (`fetch` of ipapi.co followed by
`response.json()`): either the whole fetch/parse fails, or it yields a JSON
object whose `city`, `country_name` and `region` fields may each be absent. -/
inductive GeoLookupOutcome where
  | failure : GeoLookupOutcome
  | success (city country_name region : Option String) : GeoLookupOutcome
deriving DecidableEq

/-- JavaScript `String.prototype.startsWith`: the first argument begins
with the second. -/
def jsStartsWith (s p : String) : Bool :=
  p.data.isPrefixOf s.data

/-- JavaScript `x || d` on an optional string field: `undefined` and the
empty string are falsy. -/
def jsOrStr (o : Option String) (d : String) : String :=
  match o with
  | none => d
  | some s => if s = "" then d else s

/-- The all-`"Unknown"` record. -/
def unknownGeo : GeoData :=
  { city := "Unknown", country := "Unknown", region := "Unknown" }

/-- `getGeographicData` of route.ts lines 20-39, with the network call
abstracted into `lookup`.  The function is total: every branch, including
lookup failure, returns a record (nothing propagates to the caller). -/
def getGeographicData (ip : String) (lookup : GeoLookupOutcome) : GeoData :=
  if ip = "unknown" ∨ jsStartsWith ip "192.168." ∨ jsStartsWith ip "127." then
    unknownGeo
  else
    match lookup with
    | .failure => unknownGeo
    | .success city country_name region =>
        { city := jsOrStr city "Unknown"
          country := jsOrStr country_name "Unknown"
          region := jsOrStr region "Unknown" }

/-- Whether `getGeographicData` reaches the `fetch` call for this address:
the guard of route.ts line 21 is the only thing standing before it. -/
def contactsLookup (ip : String) : Bool :=
  ¬ (ip = "unknown" ∨ jsStartsWith ip "192.168." ∨ jsStartsWith ip "127.")

/-- Modelled from the spec: "private/loopback addresses".  A dotted-quad
address is private (RFC 1918) when it lies in 10.0.0.0/8, 172.16.0.0/12 or
192.168.0.0/16, and loopback when it lies in 127.0.0.0/8. -/
def isPrivateOrLoopbackIP (ip : String) : Bool :=
  jsStartsWith ip "10." ∨ jsStartsWith ip "192.168." ∨ jsStartsWith ip "127." ∨
    (["172.16.", "172.17.", "172.18.", "172.19.", "172.20.", "172.21.", "172.22.",
      "172.23.", "172.24.", "172.25.", "172.26.", "172.27.", "172.28.", "172.29.",
      "172.30.", "172.31."].any (fun p => jsStartsWith ip p))

/-! ### The visit store and the POST event handler (route.ts, `POST`) -/

/-- A location sample as stored by the server: the client payload's
coordinates with the server-assigned timestamp (the spread
`{...data.location, timestamp: new Date()}` overrides any client value). -/
structure StoredLocation where
  latitude : Int
  longitude : Int
  timestamp : Int
deriving DecidableEq

/-- The client-supplied location payload (coordinates; any timestamp it
carries is discarded by the server). -/
structure LocationPayload where
  latitude : Int
  longitude : Int
deriving DecidableEq

/-- The `data` member of a POST body.  Absent JSON fields are `none`. -/
structure EventData where
  deviceInfo : Option String
  networkInfo : Option String
  granted : Bool
  location : Option LocationPayload
  searchQuery : Option String
  savedLocation : Bool
deriving DecidableEq

/-- A POST body: `{ sessionId, type, data }`. -/
structure EventBody where
  sessionId : Option String
  type : String
  data : EventData
deriving DecidableEq

/-- One `UserVisit` document (src/models/UserVisit.ts), with the mongoose
defaults spelled out at creation time in `POST`. -/
structure UserVisit where
  sessionId : String
  ipAddress : String
  userAgent : String
  firstVisit : Int
  lastActivity : Int
  totalDuration : Int
  locations : List StoredLocation
  currentLocation : Option StoredLocation
  locationPermissionGranted : Bool
  locationPermissionTime : Option Int
  deviceInfo : Option String
  networkInfo : Option String
  pageViews : Int
  interactionCount : Int
  searchQueries : List String
  savedLocationsCount : Int
  city : String
  country : String
  region : String
deriving DecidableEq

/-- The response shape of `POST`: success flag, HTTP status, and the
`data.sessionId` echo (`userVisit?.sessionId`, `none` when no document was
found or created). -/
structure PostResponse where
  success : Bool
  status : Int
  respSessionId : Option String
deriving DecidableEq

/-- `UserVisit.findOne({ sessionId })`: the store holds at most one document
per `sessionId` (unique index). -/
def findOne (store : List UserVisit) (sid : String) : Option UserVisit :=
  store.find? (fun u => u.sessionId == sid)

/-- Mutating the found document and `save()`-ing it: replace the document
with the matching `sessionId` by its updated version. -/
def modifyVisit (store : List UserVisit) (sid : String) (f : UserVisit → UserVisit) :
    List UserVisit :=
  store.map (fun u => if u.sessionId == sid then f u else u)

/-- The update applied by the `location_permission` branch (route.ts
lines 80-96) to the found document. -/
def applyPermission (d : EventData) (now : Int) (u : UserVisit) : UserVisit :=
  let u1 := { u with locationPermissionGranted := d.granted
                     locationPermissionTime := some now
                     lastActivity := now }
  match d.location with
  | some p =>
      if d.granted then
        let cl : StoredLocation := ⟨p.latitude, p.longitude, now⟩
        { u1 with currentLocation := some cl, locations := u1.locations ++ [cl] }
      else u1
  | none => u1

/-- The update applied by the `location_update` branch (route.ts
lines 98-114) to the found document, given the location payload. -/
def applyLocationUpdate (p : LocationPayload) (now : Int) (u : UserVisit) : UserVisit :=
  let nl : StoredLocation := ⟨p.latitude, p.longitude, now⟩
  { u with currentLocation := some nl
           locations := u.locations ++ [nl]
           lastActivity := now
           totalDuration := (now - u.firstVisit).fdiv 1000 }

/-- The update applied by the `interaction` branch (route.ts lines 116-134)
to the found document.  JavaScript truthiness: an absent or empty
`searchQuery` is not appended. -/
def applyInteraction (d : EventData) (now : Int) (u : UserVisit) : UserVisit :=
  let u1 := { u with interactionCount := u.interactionCount + 1, lastActivity := now }
  let u2 := match d.searchQuery with
    | some q => if q = "" then u1 else { u1 with searchQueries := u1.searchQueries ++ [q] }
    | none => u1
  let u3 := if d.savedLocation then
      { u2 with savedLocationsCount := u2.savedLocationsCount + 1 }
    else u2
  { u3 with totalDuration := (now - u3.firstVisit).fdiv 1000 }

/-- The fresh document built by the `initial_visit` branch (route.ts
lines 62-78), together with the mongoose schema defaults. -/
def newVisit (sid clientIP userAgent : String) (d : EventData) (now : Int)
    (geo : GeoData) : UserVisit :=
  { sessionId := sid
    ipAddress := clientIP
    userAgent := userAgent
    firstVisit := now
    lastActivity := now
    totalDuration := 0
    locations := []
    currentLocation := none
    locationPermissionGranted := false
    locationPermissionTime := none
    deviceInfo := d.deviceInfo
    networkInfo := d.networkInfo
    pageViews := 1
    interactionCount := 0
    searchQueries := []
    savedLocationsCount := 0
    city := geo.city
    country := geo.country
    region := geo.region }

/-- The `POST` handler of route.ts lines 42-149, as a pure transition on the
store.  `now` is the handler's clock (`new Date()`), `geoLookup` the outcome
of the external ip lookup.  Returns the new store and the response. -/
def POST (store : List UserVisit) (body : EventBody) (clientIP userAgent : String)
    (now : Int) (geoLookup : GeoLookupOutcome) : List UserVisit × PostResponse :=
  match body.sessionId with
  | none => (store, ⟨false, 400, none⟩)
  | some sid =>
    if sid = "" then (store, ⟨false, 400, none⟩)
    else
      let userVisit := findOne store sid
      if body.type = "initial_visit" then
        match userVisit with
        | none =>
            let geo := getGeographicData clientIP geoLookup
            (store ++ [newVisit sid clientIP userAgent body.data now geo],
             ⟨true, 200, some sid⟩)
        | some _ => (store, ⟨true, 200, some sid⟩)
      else if body.type = "location_permission" then
        match userVisit with
        | some _ => (modifyVisit store sid (applyPermission body.data now),
                     ⟨true, 200, some sid⟩)
        | none => (store, ⟨true, 200, none⟩)
      else if body.type = "location_update" then
        match userVisit, body.data.location with
        | some _, some p => (modifyVisit store sid (applyLocationUpdate p now),
                             ⟨true, 200, some sid⟩)
        | some _, none => (store, ⟨true, 200, some sid⟩)
        | none, _ => (store, ⟨true, 200, none⟩)
      else if body.type = "interaction" then
        match userVisit with
        | some _ => (modifyVisit store sid (applyInteraction body.data now),
                     ⟨true, 200, some sid⟩)
        | none => (store, ⟨true, 200, none⟩)
      else
        (store, ⟨true, 200, (userVisit.map (fun u => u.sessionId))⟩)

/-! ### Search suggestion pipeline (page.tsx, `getSuggestions`) -/

/-- JavaScript `String.prototype.trim`: strip whitespace from both ends. -/
def trimChars (l : List Char) : List Char :=
  ((l.dropWhile Char.isWhitespace).reverse.dropWhile Char.isWhitespace).reverse

/-- `query.trim()` as used by `getSuggestions`. -/
def jsTrim (s : String) : String :=
  String.mk (trimChars s.data)

/-- One geocoding suggestion (the fields the pipeline displays). -/
structure Suggestion where
  place_id : String
  display_name : String
deriving DecidableEq

/-- The display state written by `getSuggestions`: the suggestion list and
the panel-visibility flag. -/
structure SuggState where
  searchSuggestions : List Suggestion
  showSuggestions : Bool
deriving DecidableEq

/-- Outcome of one suggestion fetch: transport failure / timeout / non-2xx
(all of which reach the catch block), or a parsed candidate list. -/
inductive SuggFetchOutcome where
  | failure : SuggFetchOutcome
  | success (data : List Suggestion) : SuggFetchOutcome
deriving DecidableEq

/-- One complete run of `getSuggestions(query)` (page.tsx lines 127-170):
`(st', issued)` where `st'` is the display state it leaves behind and
`issued` records whether the network request was sent.  The guard is the
source's `!query.trim() || query.length < 2` (raw length, trimmed
emptiness). -/
def getSuggestionsRun (query : String) (o : SuggFetchOutcome) (st : SuggState) :
    SuggState × Bool :=
  if jsTrim query = "" ∨ query.length < 2 then
    ({ searchSuggestions := [], showSuggestions := false }, false)
  else
    match o with
    | .success data =>
        ({ searchSuggestions := data, showSuggestions := 0 < data.length }, true)
    | .failure => ({ searchSuggestions := [], showSuggestions := false }, true)
  -- `st` is the state before the run; the source overwrites both fields on
  -- every path, so the result does not depend on it.

/-- Several overlapping `getSuggestions` calls, applied to the display state
in the order their responses arrive (single-threaded event loop: each
response's `setSearchSuggestions`/`setShowSuggestions` runs at arrival
time).  The source ties no response to the query that produced it. -/
def runSuggestionResponses (st : SuggState) (arrivals : List (String × SuggFetchOutcome)) :
    SuggState :=
  arrivals.foldl (fun s qr => (getSuggestionsRun qr.1 qr.2 s).1) st

/-! ### Recent searches (page.tsx, `saveRecentSearch`) -/

/-- `saveRecentSearch` (page.tsx lines 173-179):
`[query, ...recentSearches.filter(s => s !== query)].slice(0, 5)`. -/
def saveRecentSearch (query : String) (recentSearches : List String) : List String :=
  (query :: recentSearches.filter (fun s => s ≠ query)).take 5

/-! ### Route acquisition pipeline (page.tsx, `getRoute` and helpers) -/

/-- A coordinate pair as the pipeline holds it. -/
structure Point where
  longitude : ℝ
  latitude : ℝ

/-- A computed route: coordinate list (latitude first), distance in meters,
duration in seconds. -/
structure RouteData where
  coordinates : List (ℝ × ℝ)
  distance : ℝ
  duration : ℝ

/-- One candidate route in the routing-service response: geometry as
longitude-first pairs, distance in meters, duration in seconds. -/
structure OsrmRoute where
  geometry : List (ℝ × ℝ)
  distance : ℝ
  duration : ℝ

/-- Outcome of one routing fetch. -/
inductive FetchOutcome where
  | transportFailure : FetchOutcome
  | timeout : FetchOutcome
  | response (ok : Bool) (routes : List OsrmRoute) : FetchOutcome

/-- The two route modes. -/
inductive RouteType where
  | road : RouteType
  | walking : RouteType

/-- `Math.atan2`, written out from its JavaScript semantics (finite
arguments; the pipeline only ever applies it to square roots). -/
noncomputable def atan2 (y x : ℝ) : ℝ :=
  if 0 < x then Real.arctan (y / x)
  else if x < 0 then
    (if 0 ≤ y then Real.arctan (y / x) + Real.pi else Real.arctan (y / x) - Real.pi)
  else
    (if 0 < y then Real.pi / 2 else if y < 0 then -(Real.pi / 2) else 0)

/-- `calculateDistance` (page.tsx lines 261-274): the haversine formula with
Earth radius 6371e3 m. -/
noncomputable def calculateDistance (point1 point2 : Point) : ℝ :=
  let R : ℝ := 6371000
  let phi1 := point1.latitude * Real.pi / 180
  let phi2 := point2.latitude * Real.pi / 180
  let dphi := (point2.latitude - point1.latitude) * Real.pi / 180
  let dlam := (point2.longitude - point1.longitude) * Real.pi / 180
  let a := Real.sin (dphi / 2) * Real.sin (dphi / 2) +
      Real.cos phi1 * Real.cos phi2 * Real.sin (dlam / 2) * Real.sin (dlam / 2)
  let c := 2 * atan2 (Real.sqrt a) (Real.sqrt (1 - a))
  R * c

/-- `createDirectWalkingRoute` (page.tsx lines 278-292): the two-point
fallback with walking speed 1.4 m/s. -/
noncomputable def createDirectWalkingRoute (start finish : Point) : RouteData :=
  let coordinates : List (ℝ × ℝ) :=
    [(start.latitude, start.longitude), (finish.latitude, finish.longitude)]
  let distance := calculateDistance start finish
  let duration := distance / 1.4
  { coordinates := coordinates, distance := distance, duration := duration }

/-- `getWalkingRoute` (page.tsx lines 295-345): on a 2xx response with at
least one candidate, take the first and flip its pairs to latitude-first;
every other outcome (non-2xx throw, empty candidate list throw, timeout
abort, transport failure) lands in the catch block, which falls back to
`createDirectWalkingRoute`. -/
noncomputable def getWalkingRoute (start finish : Point) (o : FetchOutcome) : RouteData :=
  match o with
  | .response true (r :: _) =>
      { coordinates := r.geometry.map (fun coord => (coord.2, coord.1))
        distance := r.distance
        duration := r.duration }
  | _ => createDirectWalkingRoute start finish

/-- The body of `getRoute` (page.tsx lines 350-445) for present endpoints,
as a function of the fetch outcome.  In road mode, every failure reaches the
outer catch block, which builds the two-point path and recomputes the
haversine distance inline (lines 421-442), with duration `distance / 13.89`. -/
noncomputable def getRoute (routeType : RouteType) (startPoint endPoint : Point)
    (o : FetchOutcome) : RouteData :=
  match routeType with
  | .walking => getWalkingRoute startPoint endPoint o
  | .road =>
    match o with
    | .response true (route :: _) =>
        { coordinates := route.geometry.map (fun coord => (coord.2, coord.1))
          distance := route.distance
          duration := route.duration }
    | _ =>
        let coordinates : List (ℝ × ℝ) :=
          [(startPoint.latitude, startPoint.longitude),
           (endPoint.latitude, endPoint.longitude)]
        let R : ℝ := 6371000
        let phi1 := startPoint.latitude * Real.pi / 180
        let phi2 := endPoint.latitude * Real.pi / 180
        let dphi := (endPoint.latitude - startPoint.latitude) * Real.pi / 180
        let dlam := (endPoint.longitude - startPoint.longitude) * Real.pi / 180
        let a := Real.sin (dphi / 2) * Real.sin (dphi / 2) +
            Real.cos phi1 * Real.cos phi2 * Real.sin (dlam / 2) * Real.sin (dlam / 2)
        let c := 2 * atan2 (Real.sqrt a) (Real.sqrt (1 - a))
        let distance := R * c
        let duration := distance / 13.89
        { coordinates := coordinates, distance := distance, duration := duration }

/-- The failure cases of a routing fetch: everything except an ok response
carrying at least one candidate route. -/
def isRouteFailure : FetchOutcome → Bool
  | .response true (_ :: _) => false
  | _ => true

/-! ### Helper lemmas about the store -/

/-- `find?` by `sessionId` commutes with mapping a `sessionId`-preserving
function over the store. -/
theorem find?_sessionId_map (g : UserVisit → UserVisit)
    (hg : ∀ u, (g u).sessionId = u.sessionId) (l : List UserVisit) (s' : String) :
    (l.map g).find? (fun u => u.sessionId == s')
      = (l.find? (fun u => u.sessionId == s')).map g := by
  induction l with
  | nil => rfl
  | cons a t ih =>
      simp only [List.map_cons, List.find?, hg]
      cases h : (a.sessionId == s') with
      | true => simp
      | false => simpa using ih

theorem applyPermission_sessionId (d : EventData) (now : Int) (u : UserVisit) :
    (applyPermission d now u).sessionId = u.sessionId := by
  unfold applyPermission
  cases d.location <;> dsimp only <;> try rfl
  split <;> rfl

theorem applyLocationUpdate_sessionId (p : LocationPayload) (now : Int) (u : UserVisit) :
    (applyLocationUpdate p now u).sessionId = u.sessionId := rfl

theorem applyInteraction_sessionId (d : EventData) (now : Int) (u : UserVisit) :
    (applyInteraction d now u).sessionId = u.sessionId := by
  unfold applyInteraction
  cases d.searchQuery <;> dsimp only <;> split <;> try split
  all_goals rfl

theorem applyLocationUpdate_totalDuration (p : LocationPayload) (now : Int) (u : UserVisit) :
    (applyLocationUpdate p now u).totalDuration = (now - u.firstVisit).fdiv 1000 := rfl

theorem applyInteraction_totalDuration (d : EventData) (now : Int) (u : UserVisit) :
    (applyInteraction d now u).totalDuration = (now - u.firstVisit).fdiv 1000 := by
  unfold applyInteraction
  cases d.searchQuery <;> dsimp only <;> split <;> try split
  all_goals rfl

theorem applyLocationUpdate_permissionTime (p : LocationPayload) (now : Int) (u : UserVisit) :
    (applyLocationUpdate p now u).locationPermissionTime = u.locationPermissionTime := rfl

theorem applyInteraction_permissionTime (d : EventData) (now : Int) (u : UserVisit) :
    (applyInteraction d now u).locationPermissionTime = u.locationPermissionTime := by
  unfold applyInteraction
  cases d.searchQuery <;> dsimp only <;> split <;> try split
  all_goals rfl

theorem applyPermission_permissionTime (d : EventData) (now : Int) (u : UserVisit) :
    (applyPermission d now u).locationPermissionTime = some now := by
  unfold applyPermission
  cases d.location <;> dsimp only <;> try rfl
  split <;> rfl

/-! ### Concrete sample values used by witnesses -/

/-- A minimal event payload (all optional fields absent). -/
def sampleData : EventData :=
  { deviceInfo := none, networkInfo := none, granted := false,
    location := none, searchQuery := none, savedLocation := false }

/-- The visit document created by an initial-visit event at time 0 from the
`"unknown"` address. -/
def sampleVisit : UserVisit := newVisit "s1" "unknown" "UA" sampleData 0 unknownGeo

/-! ### Claims -/

/-- C10: a POST whose body has no `sessionId` is rejected with a
`success: false`, status-400 response, and the store is returned unchanged,
whatever the event type. -/
theorem c10_missing_sessionId_rejected (store : List UserVisit) (ty : String)
    (d : EventData) (ip ua : String) (now : Int) (g : GeoLookupOutcome) :
    POST store ⟨none, ty, d⟩ ip ua now g = (store, ⟨false, 400, none⟩) := rfl

/-- C1: session creation is idempotent — an `initial_visit` event for a
`sessionId` that already has a document leaves the store exactly as it was
(and answers success). -/
theorem c1_initial_visit_idempotent (store : List UserVisit) (sid : String) (v : UserVisit)
    (d : EventData) (ip ua : String) (now : Int) (g : GeoLookupOutcome)
    (hsid : sid ≠ "") (hv : findOne store sid = some v) :
    POST store ⟨some sid, "initial_visit", d⟩ ip ua now g
      = (store, ⟨true, 200, some sid⟩) := by
  simp [POST, hsid, hv]

theorem c1_witness :
    ("s1" : String) ≠ "" ∧ findOne [sampleVisit] "s1" = some sampleVisit ∧
    POST [sampleVisit] ⟨some "s1", "initial_visit", sampleData⟩ "unknown" "UA" 5
        GeoLookupOutcome.failure
      = ([sampleVisit], ⟨true, 200, some "s1"⟩) :=
  ⟨by decide, by decide,
   c1_initial_visit_idempotent [sampleVisit] "s1" sampleVisit sampleData "unknown" "UA" 5
     GeoLookupOutcome.failure (by decide) (by decide)⟩

/-- C2: a `location_permission`, `location_update` or `interaction` event
for a `sessionId` with no existing document leaves the store unmodified and
returns a success-shaped response (`success: true`, status 200, no document
created). -/
theorem c2_nonInitial_missing_session_noop (store : List UserVisit) (sid ty : String)
    (d : EventData) (ip ua : String) (now : Int) (g : GeoLookupOutcome)
    (hsid : sid ≠ "")
    (hty : ty = "location_permission" ∨ ty = "location_update" ∨ ty = "interaction")
    (hnone : findOne store sid = none) :
    POST store ⟨some sid, ty, d⟩ ip ua now g = (store, ⟨true, 200, none⟩) := by
  rcases hty with h | h | h <;> subst h <;>
    cases hl : d.location <;> simp [POST, hsid, hnone, hl]

theorem c2_witness :
    ("s9" : String) ≠ "" ∧
    (("interaction" : String) = "location_permission" ∨ ("interaction" : String) = "location_update" ∨
      ("interaction" : String) = "interaction") ∧
    findOne [sampleVisit] "s9" = none ∧
    POST [sampleVisit] ⟨some "s9", "interaction", sampleData⟩ "unknown" "UA" 5
        GeoLookupOutcome.failure
      = ([sampleVisit], ⟨true, 200, none⟩) :=
  ⟨by decide, by decide, by decide,
   c2_nonInitial_missing_session_noop [sampleVisit] "s9" "interaction" sampleData "unknown"
     "UA" 5 GeoLookupOutcome.failure (by decide) (by decide) (by decide)⟩

/-- C3: after a `location_update` (with a location payload) or an
`interaction` event processed against an existing session, the stored
`totalDuration` equals the floor of `(now - firstVisit) / 1000` — recomputed
from `firstVisit`, independent of the previous `totalDuration`. -/
theorem c3_totalDuration_recomputed (store : List UserVisit) (sid : String) (v : UserVisit)
    (ty : String) (d : EventData) (ip ua : String) (now : Int) (g : GeoLookupOutcome)
    (hsid : sid ≠ "") (hv : findOne store sid = some v)
    (hty : (ty = "location_update" ∧ d.location.isSome) ∨ ty = "interaction") :
    (findOne (POST store ⟨some sid, ty, d⟩ ip ua now g).1 sid).map
        (fun u => u.totalDuration)
      = some ((now - v.firstVisit).fdiv 1000) := by
  have hvsid : (v.sessionId == sid) = true := by
    have h2 := List.find?_some (hv : store.find? (fun u => u.sessionId == sid) = some v)
    simpa using h2
  rcases hty with ⟨h, hloc⟩ | h <;> subst h
  · obtain ⟨p, hp⟩ := Option.isSome_iff_exists.mp hloc
    have : (POST store ⟨some sid, "location_update", d⟩ ip ua now g).1
        = modifyVisit store sid (applyLocationUpdate p now) := by
      simp [POST, hsid, hv, hp]
    rw [this]
    unfold modifyVisit findOne
    rw [find?_sessionId_map _ (fun u => by split <;> simp [applyLocationUpdate_sessionId])]
    rw [show store.find? (fun u => u.sessionId == sid) = some v from hv]
    have hveq : v.sessionId = sid := by simpa using hvsid
    simp [hveq, applyLocationUpdate_totalDuration]
  · have : (POST store ⟨some sid, "interaction", d⟩ ip ua now g).1
        = modifyVisit store sid (applyInteraction d now) := by
      simp [POST, hsid, hv]
    rw [this]
    unfold modifyVisit findOne
    rw [find?_sessionId_map _ (fun u => by split <;> simp [applyInteraction_sessionId])]
    rw [show store.find? (fun u => u.sessionId == sid) = some v from hv]
    have hveq : v.sessionId = sid := by simpa using hvsid
    simp [hveq, applyInteraction_totalDuration]

theorem c3_witness :
    ("s1" : String) ≠ "" ∧ findOne [sampleVisit] "s1" = some sampleVisit ∧
    ((("interaction" : String) = "location_update" ∧ sampleData.location.isSome) ∨
      ("interaction" : String) = "interaction") ∧
    (findOne (POST [sampleVisit] ⟨some "s1", "interaction", sampleData⟩ "unknown" "UA" 4500
          GeoLookupOutcome.failure).1 "s1").map (fun u => u.totalDuration)
      = some (((4500 : Int) - sampleVisit.firstVisit).fdiv 1000) :=
  ⟨by decide, by decide, by decide,
   c3_totalDuration_recomputed [sampleVisit] "s1" sampleVisit "interaction" sampleData
     "unknown" "UA" 4500 GeoLookupOutcome.failure (by decide) (by decide) (by decide)⟩

/-- The store after an initial visit at time 0 followed by a permission
decision at time 1000, for session `"s1"`. -/
def c6store2 : List UserVisit :=
  (POST (POST [] ⟨some "s1", "initial_visit", sampleData⟩ "unknown" "UA" 0
        GeoLookupOutcome.failure).1
    ⟨some "s1", "location_permission", sampleData⟩ "unknown" "UA" 1000
      GeoLookupOutcome.failure).1

/-- `c6store2` after a second permission decision at time 2000. -/
def c6store3 : List UserVisit :=
  (POST c6store2 ⟨some "s1", "location_permission", sampleData⟩ "unknown" "UA" 2000
    GeoLookupOutcome.failure).1

/-- C6 counterexample: the claim says `locationPermissionTime` is written
only by the first `location_permission` event and never changed afterwards.
In the code every `location_permission` event writes it: after decisions at
times 1000 and 2000 the stored value is 2000, no longer the first
decision's 1000. -/
theorem c6_counterexample :
    (findOne c6store2 "s1").map (fun u => u.locationPermissionTime) = some (some 1000) ∧
    (findOne c6store3 "s1").map (fun u => u.locationPermissionTime) = some (some 2000) ∧
    some (some (2000 : Int)) ≠ some (some (1000 : Int)) :=
  ⟨by decide, by decide, by decide⟩

/-- C6 (amended): every `location_permission` event processed against an
existing session writes `locationPermissionTime` to that event's processing
time (so a later permission event overwrites the first decision's value),
while `location_update` and `interaction` events never modify the field of
any stored document. -/
theorem c6_permissionTime_frame (store : List UserVisit) (sid : String) (v : UserVisit)
    (d : EventData) (ip ua : String) (now : Int) (g : GeoLookupOutcome)
    (hsid : sid ≠ "") (hv : findOne store sid = some v) :
    ((findOne (POST store ⟨some sid, "location_permission", d⟩ ip ua now g).1 sid).map
        (fun u => u.locationPermissionTime) = some (some now))
  ∧ (∀ ty, (ty = "location_update" ∨ ty = "interaction") → ∀ s' : String,
      (findOne (POST store ⟨some sid, ty, d⟩ ip ua now g).1 s').map
          (fun u => u.locationPermissionTime)
        = (findOne store s').map (fun u => u.locationPermissionTime)) := by
  have hvsid : (v.sessionId == sid) = true := by
    have h2 := List.find?_some (hv : store.find? (fun u => u.sessionId == sid) = some v)
    simpa using h2
  constructor
  · have : (POST store ⟨some sid, "location_permission", d⟩ ip ua now g).1
        = modifyVisit store sid (applyPermission d now) := by
      simp [POST, hsid, hv]
    rw [this]
    unfold modifyVisit findOne
    rw [find?_sessionId_map _ (fun u => by split <;> simp [applyPermission_sessionId])]
    rw [show store.find? (fun u => u.sessionId == sid) = some v from hv]
    have hveq : v.sessionId = sid := by simpa using hvsid
    simp [hveq, applyPermission_permissionTime]
  · rintro ty (h | h) s' <;> subst h
    · cases hl : d.location with
      | none =>
          have hv' : store.find? (fun u => u.sessionId == sid) = some v := hv
          simp [POST, hsid, hl, findOne, hv']
      | some p =>
          have : (POST store ⟨some sid, "location_update", d⟩ ip ua now g).1
              = modifyVisit store sid (applyLocationUpdate p now) := by
            simp [POST, hsid, hv, hl]
          rw [this]
          unfold modifyVisit findOne
          rw [find?_sessionId_map _
            (fun u => by split <;> simp [applyLocationUpdate_sessionId])]
          cases hfo : store.find? (fun u => u.sessionId == s') <;>
            simp [applyLocationUpdate_permissionTime]
          split <;> simp [applyLocationUpdate_permissionTime]
    · have : (POST store ⟨some sid, "interaction", d⟩ ip ua now g).1
          = modifyVisit store sid (applyInteraction d now) := by
        simp [POST, hsid, hv]
      rw [this]
      unfold modifyVisit findOne
      rw [find?_sessionId_map _ (fun u => by split <;> simp [applyInteraction_sessionId])]
      cases hfo : store.find? (fun u => u.sessionId == s') <;>
        simp [applyInteraction_permissionTime]
      split <;> simp [applyInteraction_permissionTime]

theorem c6_witness :
    (("s1" : String) ≠ "" ∧ findOne [sampleVisit] "s1" = some sampleVisit) ∧
    (findOne (POST [sampleVisit] ⟨some "s1", "location_permission", sampleData⟩ "unknown"
          "UA" 7 GeoLookupOutcome.failure).1 "s1").map
        (fun u => u.locationPermissionTime) = some (some 7) ∧
    (findOne (POST [sampleVisit] ⟨some "s1", "interaction", sampleData⟩ "unknown" "UA" 7
          GeoLookupOutcome.failure).1 "s1").map
        (fun u => u.locationPermissionTime)
      = (findOne [sampleVisit] "s1").map (fun u => u.locationPermissionTime) :=
  ⟨⟨by decide, by decide⟩,
   (c6_permissionTime_frame [sampleVisit] "s1" sampleVisit sampleData "unknown" "UA" 7
      GeoLookupOutcome.failure (by decide) (by decide)).1,
   (c6_permissionTime_frame [sampleVisit] "s1" sampleVisit sampleData "unknown" "UA" 7
      GeoLookupOutcome.failure (by decide) (by decide)).2 "interaction" (Or.inr rfl) "s1"⟩

/-! ### Recent-search list lemmas -/

/-- Filtering out an element that occurs in the list shortens it by at least
one. -/
theorem length_filter_ne_succ_le (q : String) (l : List String) (h : q ∈ l) :
    (l.filter (fun s => s ≠ q)).length + 1 ≤ l.length := by
  induction l with
  | nil => simp at h
  | cons a t ih =>
      by_cases ha : a = q
      · subst ha
        have h1 : (t.filter (fun s => s ≠ a)).length ≤ t.length :=
          List.length_filter_le _ t
        simp only [List.filter_cons, List.length_cons]
        split <;> simp_all <;> omega
      · have hmem : q ∈ t := by
          rcases List.mem_cons.mp h with h' | h'
          · exact absurd h'.symm ha
          · exact h'
        have h2 := ih hmem
        simp only [List.filter_cons, List.length_cons]
        split <;> simp_all <;> omega

/-- C9: `saveRecentSearch` front-inserts the query, never yields more than 5
entries, never grows the list when the query is already present (exact-match
de-duplication), and when a 6th distinct query is inserted into a full list
of 5 it evicts the oldest (last) entry. -/
theorem c9_recent_search_list (q : String) (l : List String) :
    (saveRecentSearch q l).head? = some q
  ∧ (saveRecentSearch q l).length ≤ 5
  ∧ (q ∈ l → (saveRecentSearch q l).length ≤ l.length)
  ∧ (q ∉ l → l.length = 5 → saveRecentSearch q l = q :: l.dropLast) := by
  refine ⟨?_, ?_, ?_, ?_⟩
  · simp [saveRecentSearch]
  · simpa [saveRecentSearch] using
      List.length_take_le 5 (q :: l.filter (fun s => s ≠ q))
  · intro hmem
    have h1 := length_filter_ne_succ_le q l hmem
    have h2 := List.length_take_le 5 (q :: l.filter (fun s => s ≠ q))
    have h3 : (saveRecentSearch q l).length ≤ (l.filter (fun s => s ≠ q)).length + 1 := by
      simpa [saveRecentSearch] using
        List.length_take_le' 5 (q :: l.filter (fun s => s ≠ q))
    omega
  · intro hq hlen
    have hfilter : l.filter (fun s => s ≠ q) = l := by
      refine List.filter_eq_self.mpr (fun a ha => ?_)
      have hne : a ≠ q := fun h' => hq (by rw [h'] at ha; exact ha)
      simp [hne]
    have hdrop : l.dropLast = l.take 4 := by
      rw [List.dropLast_eq_take, hlen]
    rw [saveRecentSearch, hfilter, hdrop]
    rfl

theorem c9_witness :
    (("b" : String) ∈ ["a", "b", "c"] ∧
      (saveRecentSearch "b" ["a", "b", "c"]).length ≤ (["a", "b", "c"] : List String).length) ∧
    (("f" : String) ∉ ["a", "b", "c", "d", "e"] ∧
      (["a", "b", "c", "d", "e"] : List String).length = 5 ∧
      saveRecentSearch "f" ["a", "b", "c", "d", "e"]
        = "f" :: (["a", "b", "c", "d", "e"] : List String).dropLast) ∧
    (saveRecentSearch "f" ["a", "b", "c", "d", "e"]).head? = some "f" :=
  ⟨⟨by decide, (c9_recent_search_list "b" ["a", "b", "c"]).2.2.1 (by decide)⟩,
   ⟨by decide, by decide,
    (c9_recent_search_list "f" ["a", "b", "c", "d", "e"]).2.2.2 (by decide) (by decide)⟩,
   (c9_recent_search_list "f" ["a", "b", "c", "d", "e"]).1⟩

/-! ### Suggestion-pipeline lemmas -/

/-- Trimming only removes characters. -/
theorem jsTrim_length_le (s : String) : (jsTrim s).length ≤ s.length := by
  show (trimChars s.data).length ≤ s.data.length
  unfold trimChars
  have h1 : ((s.data.dropWhile Char.isWhitespace).reverse.dropWhile
      Char.isWhitespace).length ≤ (s.data.dropWhile Char.isWhitespace).reverse.length :=
    ((s.data.dropWhile Char.isWhitespace).reverse.dropWhile_sublist _).length_le
  have h2 : (s.data.dropWhile Char.isWhitespace).length ≤ s.data.length :=
    (s.data.dropWhile_sublist _).length_le
  simp only [List.length_reverse] at h1 ⊢
  omega

/-- C7 counterexample: the claim says a query whose trimmed form is shorter
than 2 characters issues no request.  The code guards on the raw length
(`query.length < 2`), so `"a "` — trimmed length 1 — slips through and a
request is issued. -/
theorem c7_counterexample :
    (jsTrim "a ").length < 2 ∧
    (getSuggestionsRun "a " (SuggFetchOutcome.success []) ⟨[], false⟩).2 = true :=
  ⟨by decide, by decide⟩

/-- C7 (amended): a query that is all-whitespace or has raw length < 2
clears the suggestion list, hides the panel and issues no request; any
other query issues a request — in particular every query whose trimmed form
still has length ≥ 2 does. -/
theorem c7_request_policy (query : String) (o : SuggFetchOutcome) (st : SuggState) :
    ((jsTrim query = "" ∨ query.length < 2) →
        getSuggestionsRun query o st
          = ({ searchSuggestions := [], showSuggestions := false }, false))
  ∧ (¬(jsTrim query = "" ∨ query.length < 2) → (getSuggestionsRun query o st).2 = true)
  ∧ (2 ≤ (jsTrim query).length → (getSuggestionsRun query o st).2 = true) := by
  refine ⟨?_, ?_, ?_⟩
  · intro h
    simp [getSuggestionsRun, h]
  · intro h
    cases o <;> simp [getSuggestionsRun, h]
  · intro h
    have hne : ¬(jsTrim query = "" ∨ query.length < 2) := by
      rintro (h1 | h1)
      · rw [h1] at h; simp at h
      · have := jsTrim_length_le query; omega
    cases o <;> simp [getSuggestionsRun, hne]

theorem c7_witness :
    ((jsTrim "x" = "" ∨ ("x" : String).length < 2) ∧
      getSuggestionsRun "x" SuggFetchOutcome.failure ⟨[], false⟩
        = ({ searchSuggestions := [], showSuggestions := false }, false)) ∧
    (2 ≤ (jsTrim " ab ").length ∧
      (getSuggestionsRun " ab " (SuggFetchOutcome.success []) ⟨[], false⟩).2 = true) :=
  ⟨⟨by decide,
    (c7_request_policy "x" SuggFetchOutcome.failure ⟨[], false⟩).1 (by decide)⟩,
   ⟨by decide,
    (c7_request_policy " ab " (SuggFetchOutcome.success []) ⟨[], false⟩).2.2 (by decide)⟩⟩

/-- C5: the code attaches no query to a suggestion response — every response
overwrites the display state on arrival.  When the request for the older
query "ab" resolves after the one for the newer query "abc", its result
replaces the newer one: after the two arrivals the display holds the stale
"ab" result, not the "abc" result the claim requires. -/
theorem c5_stale_response_overwrites :
    (runSuggestionResponses ⟨[], false⟩
        [("abc", SuggFetchOutcome.success [⟨"1", "Fresh"⟩])]).searchSuggestions
      = [⟨"1", "Fresh"⟩] ∧
    (runSuggestionResponses ⟨[], false⟩
        [("abc", SuggFetchOutcome.success [⟨"1", "Fresh"⟩]),
         ("ab", SuggFetchOutcome.success [⟨"2", "Stale"⟩])]).searchSuggestions
      = [⟨"2", "Stale"⟩] ∧
    ([(⟨"2", "Stale"⟩ : Suggestion)] ≠ [(⟨"1", "Fresh"⟩ : Suggestion)]) :=
  ⟨by decide, by decide, by decide⟩

/-! ### Geo-enrichment claims -/

/-- C8 counterexample: the claim says every private address is answered
with the all-`"Unknown"` record without contacting the lookup service.
`10.0.0.1` is a private (RFC 1918) address, yet the guard of
`getGeographicData` lets it through: the lookup is contacted and its data
is returned. -/
theorem c8_counterexample :
    isPrivateOrLoopbackIP "10.0.0.1" = true ∧
    contactsLookup "10.0.0.1" = true ∧
    getGeographicData "10.0.0.1" (GeoLookupOutcome.success (some "Sydney") none none)
      = ⟨"Sydney", "Unknown", "Unknown"⟩ ∧
    ({ city := "Sydney", country := "Unknown", region := "Unknown" } : GeoData)
      ≠ unknownGeo :=
  ⟨by decide, by decide, by decide, by decide⟩

/-- C8 (amended): geo enrichment is total — it returns a record for every
input and never propagates a fault.  For the `"unknown"` address and for
addresses starting with `192.168.` or `127.` it returns the all-`"Unknown"`
record without contacting the lookup service, and any lookup failure also
yields the all-`"Unknown"` record. -/
theorem c8_geo_enrichment_defaults (ip : String) (lookup : GeoLookupOutcome) :
    ((ip = "unknown" ∨ jsStartsWith ip "192.168." ∨ jsStartsWith ip "127.") →
        getGeographicData ip lookup = unknownGeo ∧ contactsLookup ip = false)
  ∧ (lookup = GeoLookupOutcome.failure → getGeographicData ip lookup = unknownGeo) := by
  constructor
  · intro h
    constructor
    · unfold getGeographicData
      rw [if_pos h]
    · simp [contactsLookup, h]
  · intro h
    subst h
    unfold getGeographicData
    split <;> rfl

theorem c8_witness :
    ((("192.168.0.5" : String) = "unknown" ∨ jsStartsWith "192.168.0.5" "192.168." ∨
        jsStartsWith "192.168.0.5" "127.") ∧
      getGeographicData "192.168.0.5" (GeoLookupOutcome.success (some "Paris") none none)
          = unknownGeo ∧
      contactsLookup "192.168.0.5" = false) ∧
    getGeographicData "8.8.8.8" GeoLookupOutcome.failure = unknownGeo :=
  ⟨⟨by decide,
    ((c8_geo_enrichment_defaults "192.168.0.5"
        (GeoLookupOutcome.success (some "Paris") none none)).1 (by decide)).1,
    ((c8_geo_enrichment_defaults "192.168.0.5"
        (GeoLookupOutcome.success (some "Paris") none none)).1 (by decide)).2⟩,
   (c8_geo_enrichment_defaults "8.8.8.8" GeoLookupOutcome.failure).2 rfl⟩

/-! ### Route-pipeline claims -/

/-- C4: on every failing routing outcome (transport failure, timeout,
non-2xx response, or a 2xx response with zero candidate routes), the
produced route is the direct two-point path `[start, end]` latitude-first,
its distance is the haversine great-circle distance (Earth radius
6,371,000 m, as computed by `calculateDistance`), and its duration is that
distance over 1.4 m/s in walking mode and over 13.89 m/s in road mode. -/
theorem c4_route_fallback (startPoint endPoint : Point) (o : FetchOutcome)
    (h : isRouteFailure o = true) :
    getRoute RouteType.walking startPoint endPoint o =
      { coordinates := [(startPoint.latitude, startPoint.longitude),
                        (endPoint.latitude, endPoint.longitude)],
        distance := calculateDistance startPoint endPoint,
        duration := calculateDistance startPoint endPoint / 1.4 }
  ∧ getRoute RouteType.road startPoint endPoint o =
      { coordinates := [(startPoint.latitude, startPoint.longitude),
                        (endPoint.latitude, endPoint.longitude)],
        distance := calculateDistance startPoint endPoint,
        duration := calculateDistance startPoint endPoint / 13.89 } := by
  constructor <;>
    cases o with
    | transportFailure => rfl
    | timeout => rfl
    | response ok routes =>
        cases ok <;> cases routes <;>
          first
          | rfl
          | (exfalso; simp [isRouteFailure] at h)

theorem c4_witness :
    isRouteFailure FetchOutcome.timeout = true ∧
    getRoute RouteType.walking ⟨0, 0⟩ ⟨1, 1⟩ FetchOutcome.timeout =
      { coordinates := [(0, 0), (1, 1)],
        distance := calculateDistance ⟨0, 0⟩ ⟨1, 1⟩,
        duration := calculateDistance ⟨0, 0⟩ ⟨1, 1⟩ / 1.4 } :=
  ⟨rfl, (c4_route_fallback ⟨0, 0⟩ ⟨1, 1⟩ FetchOutcome.timeout rfl).1⟩

end MapNav
